import Mathlib

/-!
Verification development for the Smart Receipts ingestion pipeline
(`Database/db_manager.py` and `Modules/ocr_groq.py`).

The database layer is SQLite accessed through `sqlite3`.  SQL `REAL` values
are modelled as exact rationals (`Rat`); this is adequate because the code
performs no arithmetic on them — values are only bound as parameters and
compared by the schema's CHECK constraints, and every comparison appearing
in a theorem below has the same outcome over binary floating point and over
the exact rationals used here.
-/

namespace SmartReceipts

/-- A SQLite storage value: `NULL`, `INTEGER`, `REAL` or `TEXT`.
(No `BLOB` values are ever bound by the program.) -/
inductive SqlValue where
  | null : SqlValue
  | int (i : Int) : SqlValue
  | real (r : Rat) : SqlValue
  | text (s : String) : SqlValue
deriving DecidableEq, Repr

/-- A table row: an association list from column names to values.
`buildRow` below always produces one entry per schema column. -/
abbrev Row := List (String × SqlValue)

/-- First-match association-list lookup (the semantics of a Python `dict`
lookup; the dictionaries built by the source never repeat a key). -/
def lookupA {α : Type} : List (String × α) → String → Option α
  | [], _ => none
  | (k2, v) :: rest, k => if k2 = k then some v else lookupA rest k

/-- Value of column `k` in row `r`; `NULL` for a column not present. -/
def rowVal (r : Row) (k : String) : SqlValue :=
  (lookupA r k).getD SqlValue.null

/-- SQLite `=` comparison as used in `WHERE` clauses and `UNIQUE`
constraint checking: comparison with `NULL` is never true (so `UNIQUE`
admits many `NULL`s and a `WHERE col = NULL` filter matches nothing);
`INTEGER` and `REAL` compare numerically. -/
def sqlEq : SqlValue → SqlValue → Bool
  | SqlValue.null, _ => false
  | _, SqlValue.null => false
  | SqlValue.int a, SqlValue.int b => a = b
  | SqlValue.int a, SqlValue.real b => (a : Rat) = b
  | SqlValue.real a, SqlValue.int b => a = (b : Rat)
  | SqlValue.real a, SqlValue.real b => a = b
  | SqlValue.text a, SqlValue.text b => a = b
  | _, _ => false

/-- An integer upper bound for a stored id value, used to compute the next
`AUTOINCREMENT` rowid.  Non-numeric id values (which the program never
stores) are bounded by `0`. -/
def idAsInt : SqlValue → Int
  | SqlValue.int i => i
  | SqlValue.real r => ⌈r⌉
  | _ => 0

/-- An upper bound on the ids stored in a table (`0` for an empty
table). -/
def maxId (idCol : String) (table : List Row) : Int :=
  table.foldr (fun r m => max (idAsInt (rowVal r idCol)) m) 0

/-- The rowid SQLite assigns to a fresh `INTEGER PRIMARY KEY AUTOINCREMENT`
row: strictly larger than every id already in the table. -/
def nextId (idCol : String) (table : List Row) : Int :=
  maxId idCol table + 1

/-- `CHECK (col >= 0)` under SQLite semantics: a `NULL` operand makes the
CHECK pass; `TEXT` sorts after all numbers, so `text >= 0` is true. -/
def chkNonNeg : SqlValue → Bool
  | SqlValue.null => true
  | SqlValue.int i => 0 ≤ i
  | SqlValue.real r => 0 ≤ r
  | SqlValue.text _ => true

/-- `CHECK (LENGTH(col) = 3)` under SQLite semantics: `LENGTH(NULL)` is
`NULL`, so the CHECK passes; for `TEXT` it is the character count; numeric
operands (never stored by the program in these columns) take the length of
their decimal rendering for `INTEGER` and are not modelled precisely for
`REAL` (no claim exercises them). -/
def chkLen3 : SqlValue → Bool
  | SqlValue.null => true
  | SqlValue.text s => s.length = 3
  | SqlValue.int i => (toString i).length = 3
  | SqlValue.real _ => true

/-- `CHECK (col >= 0 AND col <= 100)` under SQLite semantics: `NULL`
passes; `TEXT` fails the `<= 100` half (text sorts after numbers). -/
def chkPercent : SqlValue → Bool
  | SqlValue.null => true
  | SqlValue.int i => 0 ≤ i ∧ i ≤ 100
  | SqlValue.real r => 0 ≤ r ∧ r ≤ 100
  | SqlValue.text _ => false

/-- One column of a `CREATE TABLE` statement, as written by
`init_database`. -/
structure ColumnSpec where
  name : String
  /-- `INTEGER PRIMARY KEY AUTOINCREMENT` -/
  autoId : Bool := false
  /-- `TIMESTAMP DEFAULT CURRENT_TIMESTAMP` -/
  tsDefault : Bool := false
  notNull : Bool := false
  unique : Bool := false
  /-- the column's `CHECK` constraint (`fun _ => true` when absent) -/
  chk : SqlValue → Bool := fun _ => true

/-- `receipts(Id INTEGER PRIMARY KEY AUTOINCREMENT, File_path TEXT UNIQUE,
Upload_date TIMESTAMP DEFAULT CURRENT_TIMESTAMP)` -/
def receiptsSchema : List ColumnSpec :=
  [{ name := "Id", autoId := true, unique := true },
   { name := "File_path", unique := true },
   { name := "Upload_date", tsDefault := true }]

/-- `extracted_data` as created by `init_database`.  The
`FOREIGN KEY(receipt_id) REFERENCES receipts(Id) ON DELETE CASCADE` clause
is declared in the DDL but its enforcement is governed by
`foreign_keys_pragma` below. -/
def extractedDataSchema : List ColumnSpec :=
  [{ name := "id", autoId := true, unique := true },
   { name := "receipt_id", notNull := true },
   { name := "purchase_date" },
   { name := "purchase_time" },
   { name := "store_name" },
   { name := "address" },
   { name := "city" },
   { name := "country" },
   { name := "total_price", chk := chkNonNeg },
   { name := "total_currency", chk := chkLen3 },
   { name := "payment_method" }]

/-- `receipt_items` as created by `init_database`: note that the DDL
declares NO `quantity` column and NO absolute-discount column — its columns
are exactly id, extracted_data_id, name, price, currency, discount_percent
and discount_value.  The `FOREIGN KEY(extracted_data_id)` cascade clause is
declared but enforcement is governed by `foreign_keys_pragma`. -/
def receiptItemsSchema : List ColumnSpec :=
  [{ name := "id", autoId := true, unique := true },
   { name := "extracted_data_id", notNull := true },
   { name := "name", notNull := true },
   { name := "price", chk := chkNonNeg },
   { name := "currency", chk := chkLen3 },
   { name := "discount_percent", chk := chkPercent },
   { name := "discount_value", chk := chkNonNeg }]

/-- SQLite foreign-key enforcement is OFF by default for every `sqlite3`
connection, and the program never executes `PRAGMA foreign_keys = ON`
(there is no `execute("PRAGMA ...")` anywhere in the source), so declared
`ON DELETE CASCADE` clauses never fire and foreign keys are not checked. -/
def foreign_keys_pragma : Bool := false

/-- A Python exception class relevant to the embedded code. -/
inductive PyErr where
  /-- `sqlite3.IntegrityError` (NOT NULL / CHECK / UNIQUE violations) -/
  | integrityError
  /-- `sqlite3.OperationalError` (e.g. an INSERT naming a column the
  table does not have) -/
  | operationalError
  /-- `sqlite3.InterfaceError` / `ProgrammingError` (unbindable parameter) -/
  | interfaceError
  /-- `AttributeError` (e.g. `.get` on a non-dict) -/
  | attributeError
  /-- `TypeError` (e.g. iterating a non-iterable) -/
  | typeError
  /-- `json.JSONDecodeError` -/
  | jsonDecodeError
  /-- any exception raised by an external (network / UI) call -/
  | externalError
deriving DecidableEq, Repr

/-- Outcome of calling a Python function: a returned value, or an
exception that escaped it. -/
inductive PyOutcome (α : Type) where
  | ret (v : α) : PyOutcome α
  | raised (e : PyErr) : PyOutcome α
deriving DecidableEq, Repr

/-- True when `data` names a column that is not in the schema — SQLite
rejects the INSERT at prepare time with `OperationalError: no such
column`. -/
def unknownColumn (schema : List ColumnSpec) (data : Row) : Bool :=
  data.any fun kv => !(schema.any fun c => c.name = kv.1)

/-- The full row an INSERT produces: supplied values, with the
autoincrement id, the `CURRENT_TIMESTAMP` default (`now`) and `NULL`
filled in for columns the statement does not name. -/
def buildRow (now : String) (schema : List ColumnSpec) (table : List Row)
    (data : Row) : Row :=
  schema.map fun col =>
    (col.name,
      match lookupA data col.name with
      | some v => v
      | none =>
          if col.autoId then SqlValue.int (nextId col.name table)
          else if col.tsDefault then SqlValue.text now
          else SqlValue.null)

/-- True when inserting `row` into `table` violates a NOT NULL, CHECK or
UNIQUE constraint of the schema (an `IntegrityError`).  Foreign keys are
not checked: `foreign_keys_pragma` is false. -/
def violatesConstraints (schema : List ColumnSpec) (table : List Row)
    (row : Row) : Bool :=
  schema.any fun col =>
    let v := rowVal row col.name
    (col.notNull && (v = SqlValue.null : Bool))
      || !(col.chk v)
      || (col.unique && table.any fun r => sqlEq (rowVal r col.name) v)

/-- `cursor.execute(INSERT ...)`: fails with `OperationalError` on an
unknown column, with `IntegrityError` on a constraint violation, and
otherwise appends the completed row. -/
def executeInsert (now : String) (schema : List ColumnSpec)
    (table : List Row) (data : Row) : Except PyErr (List Row) :=
  if unknownColumn schema data then .error .operationalError
  else
    let row := buildRow now schema table data
    if violatesConstraints schema table row then .error .integrityError
    else .ok (table ++ [row])

/-- The state of `documents.db`: the three tables created by
`init_database`. -/
structure Database where
  receipts : List Row
  extracted_data : List Row
  receipt_items : List Row
deriving DecidableEq, Repr

/-- The empty database produced by `init_database` on a fresh file. -/
def init_database : Database :=
  { receipts := [], extracted_data := [], receipt_items := [] }

def getTable (db : Database) : String → List Row
  | "receipts" => db.receipts
  | "extracted_data" => db.extracted_data
  | "receipt_items" => db.receipt_items
  | _ => []

def setTable (db : Database) (table_name : String) (rows : List Row) :
    Database :=
  match table_name with
  | "receipts" => { db with receipts := rows }
  | "extracted_data" => { db with extracted_data := rows }
  | "receipt_items" => { db with receipt_items := rows }
  | _ => db

def schemaOf : String → List ColumnSpec
  | "receipts" => receiptsSchema
  | "extracted_data" => extractedDataSchema
  | "receipt_items" => receiptItemsSchema
  | _ => []

/-- The tables that exist in `documents.db`. -/
def knownTable (table_name : String) : Bool :=
  table_name = "receipts" || table_name = "extracted_data"
    || table_name = "receipt_items"

/-- `db_manager.insert_data`: builds `INSERT INTO t (cols) VALUES (...)`
from the dict and executes it.  Only `sqlite3.IntegrityError` is caught
(converted to the returned string `"exists"`); every other exception
propagates to the caller; on success the string `"inserted"` is
returned.  The failed statement commits nothing, so the database is
unchanged on both failure paths. -/
def insert_data (now : String) (db : Database) (table_name : String)
    (data_dict : Row) : PyOutcome String × Database :=
  if !(knownTable table_name) then (.raised .operationalError, db)
  else
    match executeInsert now (schemaOf table_name) (getTable db table_name)
        data_dict with
    | .ok rows => (.ret "inserted", setTable db table_name rows)
    | .error .integrityError => (.ret "exists", db)
    | .error e => (.raised e, db)

/-- `db_manager.get_data`: `SELECT columns FROM t [WHERE col = ? AND ...]`;
an empty `conditions` list models the `conditions=None` call (no WHERE
clause). -/
def get_data (db : Database) (table_name : String) (columns : List String)
    (conditions : Row) : List (List SqlValue) :=
  let rows := (getTable db table_name).filter fun r =>
    conditions.all fun kv => sqlEq (rowVal r kv.1) kv.2
  rows.map fun r => columns.map (rowVal r)

/-- Rows of `extracted_data` whose `receipt_id` references a deleted
receipt id — what an enforced `ON DELETE CASCADE` would remove. -/
def cascadeFromReceipts (db : Database) (deletedIds : List SqlValue) :
    Database :=
  let gone := db.extracted_data.filter fun r =>
    deletedIds.any fun v => sqlEq (rowVal r "receipt_id") v
  let keptED := db.extracted_data.filter fun r =>
    !(deletedIds.any fun v => sqlEq (rowVal r "receipt_id") v)
  let goneIds := gone.map fun r => rowVal r "id"
  let keptRI := db.receipt_items.filter fun r =>
    !(goneIds.any fun v => sqlEq (rowVal r "extracted_data_id") v)
  { db with extracted_data := keptED, receipt_items := keptRI }

/-- `db_manager.delete_data`: `DELETE FROM t WHERE col = ? AND ...`.
With an empty conditions dict the generated SQL is malformed
(`... WHERE ` with nothing after it) and `execute` raises
`OperationalError`.  Because `foreign_keys_pragma` is false, the declared
`ON DELETE CASCADE` clauses do NOT fire: only rows of the named table are
removed. -/
def delete_data (db : Database) (table_name : String) (conditions : Row) :
    PyOutcome Unit × Database :=
  if conditions.isEmpty then (.raised .operationalError, db)
  else if !(knownTable table_name) then (.raised .operationalError, db)
  else
    let hit := fun (r : Row) =>
      conditions.all fun kv => sqlEq (rowVal r kv.1) kv.2
    let remaining := (getTable db table_name).filter fun r => !(hit r)
    let db1 := setTable db table_name remaining
    if foreign_keys_pragma then
      -- dead branch: what SQLite would do with `PRAGMA foreign_keys = ON`
      if table_name = "receipts" then
        let deletedIds := ((getTable db table_name).filter hit).map
          fun r => rowVal r "Id"
        (.ret (), cascadeFromReceipts db1 deletedIds)
      else (.ret (), db1)
    else (.ret (), db1)

/-! ## JSON values and the pieces of `Modules/ocr_groq.py` -/

/-- A parsed JSON value (the result of `json.loads`). -/
inductive Json where
  | null : Json
  | bool (b : Bool) : Json
  | num (q : Rat) : Json
  | str (s : String) : Json
  | arr (xs : List Json) : Json
  | obj (fields : List (String × Json)) : Json

/-- `sqlite3` parameter binding: `None → NULL`, numbers and strings bind
to the corresponding storage class, `bool → INTEGER`; a `dict` or `list`
value cannot be bound and raises. -/
def bindJson : Json → Except PyErr SqlValue
  | Json.null => .ok SqlValue.null
  | Json.bool b => .ok (SqlValue.int (if b then 1 else 0))
  | Json.num q => .ok (SqlValue.real q)
  | Json.str s => .ok (SqlValue.text s)
  | Json.arr _ => .error .interfaceError
  | Json.obj _ => .error .interfaceError

/-- Python `d.get(k)`: `None` when the key is absent; raises
`AttributeError` when the receiver is not a dict. -/
def dictGet (j : Json) (k : String) : Except PyErr Json :=
  match j with
  | Json.obj fields => .ok ((lookupA fields k).getD Json.null)
  | _ => .error .attributeError

/-- Python `d.get(k, default)`. -/
def dictGetD (j : Json) (k : String) (dflt : Json) : Except PyErr Json :=
  match j with
  | Json.obj fields => .ok ((lookupA fields k).getD dflt)
  | _ => .error .attributeError

/-- Python `for item in x`: a list yields its elements, a dict its keys,
a string its characters; numbers and booleans are not iterable. -/
def pyIter : Json → Except PyErr (List Json)
  | Json.arr xs => .ok xs
  | Json.obj fields => .ok (fields.map fun p => Json.str p.1)
  | Json.str s => .ok (s.data.map fun c => Json.str (String.mk [c]))
  | _ => .error .typeError

/-- The character `{` (written by code to keep it out of string/char
literals). -/
def lbrace : Char := Char.ofNat 123

/-- The character `}`. -/
def rbrace : Char := Char.ofNat 125

/-- Index of the first occurrence of `ch` in the list, if any. -/
def firstIdxOf (ch : Char) : List Char → Option Nat
  | [] => none
  | c :: cs =>
      if c = ch then some 0 else (firstIdxOf ch cs).map (· + 1)

/-- Index of the last occurrence of `ch` in the list, if any. -/
def lastIdxOf (ch : Char) : List Char → Option Nat
  | [] => none
  | c :: cs =>
      match lastIdxOf ch cs with
      | some j => some (j + 1)
      | none => if c = ch then some 0 else none

/-- `ocr_groq.parse_json_from_string`: the denotation of
`re.compile(r'\x7b.*\x7d', re.DOTALL).search(text)`.  With `DOTALL`, `.`
matches every character, so a match starting at position `i` exists iff
`text[i]` is `{` and some `}` occurs strictly after `i`; `search` takes
the leftmost such start (the first `{`, provided the last `}` of the
whole string lies after it) and the greedy `.*` extends the match to that
last `}`.  Returns the spanned substring, or `None` when there is no
span.  Total — it can never raise. -/
def parse_json_from_string (text : String) : Option String :=
  let cs := text.data
  match firstIdxOf lbrace cs, lastIdxOf rbrace cs with
  | some i, some j =>
      if i < j then some (String.mk ((cs.drop i).take (j - i + 1)))
      else none
  | _, _ => none

/-- `os.path.splitext(name)[0]`: the name with its last-dot extension
removed (names with no dot are returned whole; the program's image names
are plain `stem.ext` filenames). -/
def splitextStem (s : String) : String :=
  match lastIdxOf (Char.ofNat 46) s.data with
  | none => s
  | some j => String.mk (s.data.take j)

/-- The artifact folder: filenames mapped to the stored JSON document.
The source writes `json.dumps(dict)` text; the serialized rendering is
irrelevant to every property below, so the folder stores the document
itself. -/
abbrev JsonFolder := List (String × Json)

def EXTRACTED_JSON_DIR : String := "Extracted_JSON"

/-- `ocr_groq.save_json_to_folder`: refuses to overwrite — when the file
already exists it warns and returns `None` without writing; otherwise it
writes the file and returns its path.  Output: (returned path, emitted
streamlit messages, new folder state). -/
def save_json_to_folder (folder : JsonFolder) (json_content : Json)
    (filename : String) : Option String × List String × JsonFolder :=
  if (lookupA folder filename).isSome then
    (none,
     ["JSON file '" ++ filename ++ "' already exists in the folder. No action taken."],
     folder)
  else
    (some (EXTRACTED_JSON_DIR ++ "/" ++ filename), [],
     folder ++ [(filename, json_content)])

/-- The `extracted_data_row` dict built by `ocr_groq.save_json_to_db`
(lines 218–229): each header field is `json_data.get(...)` bound as a SQL
parameter; `total_price`/`total_currency` come from
`json_data.get("prezzo_totale", \x7b\x7d).get(...)`. -/
def extracted_data_row (json_data : Json) (receipt_id : SqlValue) :
    Except PyErr Row := do
  let pd ← dictGet json_data "data" >>= bindJson
  let pt ← dictGet json_data "ora" >>= bindJson
  let sn ← dictGet json_data "negozio" >>= bindJson
  let ad ← dictGet json_data "indirizzo" >>= bindJson
  let ci ← dictGet json_data "città" >>= bindJson
  let co ← dictGet json_data "paese" >>= bindJson
  let prezzoTotale ← dictGetD json_data "prezzo_totale" (Json.obj [])
  let tp ← dictGet prezzoTotale "valore" >>= bindJson
  let tc ← dictGet prezzoTotale "valuta" >>= bindJson
  let pm ← dictGet json_data "metodo_pagamento" >>= bindJson
  pure [("receipt_id", receipt_id),
        ("purchase_date", pd),
        ("purchase_time", pt),
        ("store_name", sn),
        ("address", ad),
        ("city", ci),
        ("country", co),
        ("total_price", tp),
        ("total_currency", tc),
        ("payment_method", pm)]

/-- The per-item `item_row` dict built by `ocr_groq.save_json_to_db`
(lines 240–249).  Note the dict keys: they include `quantity` and
`absolute_discount`, and each value is the item's field bound unchanged —
no quantity scaling, rounding or discount derivation happens anywhere. -/
def item_row (extracted_data_id : SqlValue) (item : Json) :
    Except PyErr Row := do
  let nm ← dictGet item "nome" >>= bindJson
  let qt ← dictGet item "quantita" >>= bindJson
  let pr ← dictGet item "prezzo" >>= bindJson
  let cu ← dictGet item "valuta" >>= bindJson
  let dp ← dictGet item "percentuale_sconto" >>= bindJson
  let da ← dictGet item "sconto_assoluto" >>= bindJson
  let dv ← dictGet item "valore_scontato" >>= bindJson
  pure [("extracted_data_id", extracted_data_id),
        ("name", nm),
        ("quantity", qt),
        ("price", pr),
        ("currency", cu),
        ("discount_percent", dp),
        ("absolute_discount", da),
        ("discount_value", dv)]

/-- The `for item in ...: insert_data(...)` loop of `save_json_to_db`:
the return value of each `insert_data` call is discarded, but an
exception raised by it stops the loop and propagates. -/
def insertItems (now : String) (db : Database)
    (extracted_data_id : SqlValue) :
    List Json → Except (PyErr × Database) Database
  | [] => .ok db
  | item :: rest =>
      match item_row extracted_data_id item with
      | .error e => .error (e, db)
      | .ok r =>
          match insert_data now db "receipt_items" r with
          | (.raised e, db1) => .error (e, db1)
          | (.ret _, db1) => insertItems now db1 extracted_data_id rest

/-- `ocr_groq.save_json_to_db` (lines 205–252).  Inserts the header row;
any result other than `"inserted"` is returned as-is; otherwise it looks
up the id just assigned (`extracted_data_rows[-1][0]`) and inserts every
item of `lista_articoli`, then returns `"inserted"`.  Output: (outcome,
emitted streamlit messages, new database).  The function body contains no
`st.*` call at all, so the message list is `[]` on every path; an
exception raised after the header insert leaves the committed header row
in place. -/
def save_json_to_db (now : String) (db : Database) (json_data : Json)
    (receipt_id : SqlValue) : PyOutcome String × List String × Database :=
  match extracted_data_row json_data receipt_id with
  | .error e => (.raised e, [], db)
  | .ok row =>
      match insert_data now db "extracted_data" row with
      | (.raised e, db1) => (.raised e, [], db1)
      | (.ret result, db1) =>
          if result ≠ "inserted" then (.ret result, [], db1)
          else
            let rows := get_data db1 "extracted_data" ["id"]
              [("receipt_id", receipt_id)]
            let extracted_data_id :=
              match rows.getLast? with
              | some r => r.headD SqlValue.null
              | none => SqlValue.null
            match dictGetD json_data "lista_articoli" (Json.arr []) with
            | .error e => (.raised e, [], db1)
            | .ok la =>
                match pyIter la with
                | .error e => (.raised e, [], db1)
                | .ok items =>
                    match insertItems now db1 extracted_data_id items with
                    | .error (e, db2) => (.raised e, [], db2)
                    | .ok db2 => (.ret "inserted", [], db2)

/-- Python `str.strip()`: leading and trailing whitespace removed
(written over character lists so that it evaluates by kernel
reduction). -/
def pyStrip (s : String) : String :=
  String.mk
    (((s.data.dropWhile Char.isWhitespace).reverse.dropWhile
        Char.isWhitespace).reverse)

/-- Python truthiness of an optional string (`st.session_state.get`
returns `None` when unset; an empty string is also falsy). -/
def pyTruthy : Option String → Bool
  | none => false
  | some s => !s.isEmpty

/-- The inputs `run_ocr_and_save_json` draws from the Streamlit session
and from the external Groq calls.  The external calls and `json.loads` /
`fix_json_data` are modelled as outcome parameters: each either returns a
value or raises. -/
structure StreamlitEnv where
  /-- `st.session_state.get("selected_image")` -/
  selected_image : Option String
  /-- `st.session_state.get("selected_image_path")` -/
  selected_image_path : Option String
  /-- `os.path.exists(image_path)` -/
  image_file_exists : Bool
  /-- outcome of `perform_ocr_on_image` (external vision call) -/
  ocr : Except PyErr String
  /-- outcome of the JSON-generation chat completion (external call) -/
  gen : Except PyErr String
  /-- `json.loads` on the extracted span (Python stdlib) -/
  loads : String → Except PyErr Json
  /-- outcome of `fix_json_data` (external LLM call + user interaction) -/
  fix : Json → Except PyErr Json

/-- What a call to the ingestion coordinator did: returned a value
(`extracted_data_dict` or `None`), or let an exception escape. -/
inductive RunResult where
  | returned (v : Option Json) : RunResult
  | raised (e : PyErr) : RunResult

/-- `ocr_groq.run_ocr_and_save_json` (lines 255–341), the ingestion
coordinator.  Output: (outcome, emitted streamlit messages, artifact
folder, database).  The only `try/except` in the body catches exactly
`json.JSONDecodeError`; any other exception — from the OCR call, the
generation call, or the database operations — escapes to the caller.
The `st.session_state` bookkeeping writes (`last_generated_json`,
`trigger_prediction`) have no effect on any property below and are not
modelled. -/
def run_ocr_and_save_json (env : StreamlitEnv) (now : String)
    (folder : JsonFolder) (db : Database) :
    RunResult × List String × JsonFolder × Database :=
  if !pyTruthy env.selected_image || !pyTruthy env.selected_image_path
      || !env.image_file_exists then
    (.returned none, ["Nessuna immagine selezionata o file non trovato."],
     folder, db)
  else
    match env.selected_image with
    | none => (.returned none, [], folder, db)  -- unreachable: truthy above
    | some image =>
        match env.ocr with
        | .error e => (.raised e, [], folder, db)
        | .ok ocr_text =>
            if pyStrip ocr_text = "" then
              (.returned none, ["Testo OCR vuoto. Impossibile continuare."],
               folder, db)
            else
              let json_filename := splitextStem image ++ ".json"
              match env.gen with
              | .error e => (.raised e, [], folder, db)
              | .ok extracted_data =>
                  match parse_json_from_string (pyStrip extracted_data) with
                  | none =>
                      (.returned none,
                       ["No JSON object found in extracted data. File not saved."],
                       folder, db)
                  | some raw_json_string =>
                      -- try: ... except json.JSONDecodeError
                      match env.loads raw_json_string with
                      | .error .jsonDecodeError =>
                          (.returned none,
                           ["Generated data is not valid JSON. File not saved."],
                           folder, db)
                      | .error e => (.raised e, [], folder, db)
                      | .ok d0 =>
                          match env.fix d0 with
                          | .error .jsonDecodeError =>
                              (.returned none,
                               ["Generated data is not valid JSON. File not saved."],
                               folder, db)
                          | .error e => (.raised e, [], folder, db)
                          | .ok extracted_data_dict =>
                              match save_json_to_folder folder
                                  extracted_data_dict json_filename with
                              | (none, m1, folder1) =>
                                  (.returned (some extracted_data_dict), m1,
                                   folder1, db)
                              | (some json_path, m1, folder1) =>
                                  let m2 := m1 ++
                                    ["JSON file saved successfully at: " ++ json_path]
                                  let rows := get_data db "receipts" ["Id"]
                                    [("File_path", SqlValue.text image)]
                                  let receipt_id :=
                                    match rows.head? with
                                    | some r0 => r0.headD SqlValue.null
                                    | none => SqlValue.null
                                  if receipt_id = SqlValue.null then
                                    (.returned none,
                                     m2 ++ ["No matching receipt found in database."],
                                     folder1, db)
                                  else
                                    match save_json_to_db now db
                                        extracted_data_dict receipt_id with
                                    | (.raised e, m3, db1) =>
                                        (.raised e, m2 ++ m3, folder1, db1)
                                    | (.ret db_result, m3, db1) =>
                                        let status :=
                                          if db_result = "inserted" then
                                            "Data inserted into database."
                                          else if db_result = "exists" then
                                            "Data already exists in database."
                                          else
                                            "Database error: " ++ db_result
                                        (.returned (some extracted_data_dict),
                                         m2 ++ m3 ++ [status], folder1, db1)

/-! ## Spec-side helpers and concrete fixtures -/

/-- Claim-side helper, following the spec's words only (no such
computation exists in the source): Python `round(x, 2)`, rounding to two
decimal places. -/
def spec_round2 (q : Rat) : Rat := ((round (q * 100) : Int) : Rat) / 100

/-- A parsed line item as in the spec's §8 example: `quantita = 2` with
per-unit `prezzo = 1.00`. -/
def paneItem : Json :=
  Json.obj [("nome", Json.str "Pane"), ("quantita", Json.num 2),
            ("prezzo", Json.num 1)]

/-- A parsed receipt with declared total `10.00` and a single item priced
`10.20` (the spec's §8 tolerance example: `|10.00 - 10.20| = 0.20` exceeds
`max(0.10, 0.01 * 10.00) = 0.10`). -/
def mismatchDoc : Json :=
  Json.obj [("prezzo_totale",
               Json.obj [("valore", Json.num 10), ("valuta", Json.str "EUR")]),
            ("lista_articoli",
               Json.arr [Json.obj [("nome", Json.str "X"),
                                   ("prezzo", Json.num (102 / 10))]])]

/-- `documents.db` after uploading one receipt image `a.jpg` (one
`receipts` row, Id 1). -/
def oneReceiptDb : Database :=
  (insert_data "t0" init_database "receipts"
    [("File_path", SqlValue.text "a.jpg")]).2

/-- The header dict `save_json_to_db` builds from an empty parsed
document for receipt 1: every field `NULL` except `receipt_id`. -/
def emptyHeaderRow : Row :=
  [("receipt_id", SqlValue.int 1),
   ("purchase_date", SqlValue.null),
   ("purchase_time", SqlValue.null),
   ("store_name", SqlValue.null),
   ("address", SqlValue.null),
   ("city", SqlValue.null),
   ("country", SqlValue.null),
   ("total_price", SqlValue.null),
   ("total_currency", SqlValue.null),
   ("payment_method", SqlValue.null)]

/-- Database state after one ingestion run has inserted the
`extracted_data` header for receipt 1. -/
def afterFirstIngestion : Database :=
  (insert_data "t1" oneReceiptDb "extracted_data" emptyHeaderRow).2

/-- A line-item row that uses only columns the created table really has
(the form a fixed insertion path would produce). -/
def legalItemRow : Row :=
  [("extracted_data_id", SqlValue.int 1), ("name", SqlValue.text "Pane"),
   ("price", SqlValue.real 1), ("currency", SqlValue.text "EUR")]

/-- A populated database: one receipt, its extracted header, one line
item — the fixture for the cascade-delete check. -/
def populatedDb : Database :=
  (insert_data "t2" afterFirstIngestion "receipt_items" legalItemRow).2

/-- The dict `save_json_to_db` builds for `paneItem` (extracted_data_id
1): note the keys `quantity` and `absolute_discount`, and the per-unit
price kept unchanged. -/
def paneItemRow : Row :=
  [("extracted_data_id", SqlValue.int 1),
   ("name", SqlValue.text "Pane"),
   ("quantity", SqlValue.real 2),
   ("price", SqlValue.real 1),
   ("currency", SqlValue.null),
   ("discount_percent", SqlValue.null),
   ("absolute_discount", SqlValue.null),
   ("discount_value", SqlValue.null)]

/-- A coordinator environment in which the external OCR call raises. -/
def ocrFailureEnv : StreamlitEnv :=
  { selected_image := some "a.jpg",
    selected_image_path := some "Images/a.jpg",
    image_file_exists := true,
    ocr := .error .externalError,
    gen := .ok "",
    loads := fun _ => .error .jsonDecodeError,
    fix := fun d => .ok d }

/-- An environment whose generation call succeeds but returns prose with
no brace-delimited object in it. -/
def noJsonEnv : StreamlitEnv :=
  { selected_image := some "a.jpg",
    selected_image_path := some "Images/a.jpg",
    image_file_exists := true,
    ocr := Except.ok "receipt text",
    gen := Except.ok "there is no structured object here",
    loads := fun _ => Except.error PyErr.jsonDecodeError,
    fix := fun d => Except.ok d }

/-- An environment whose extracted span is not valid JSON: `json.loads`
raises `JSONDecodeError` on it. -/
def invalidJsonEnv : StreamlitEnv :=
  { selected_image := some "a.jpg",
    selected_image_path := some "Images/a.jpg",
    image_file_exists := true,
    ocr := Except.ok "receipt text",
    gen := Except.ok "reply: \x7bnot valid json\x7d",
    loads := fun _ => Except.error PyErr.jsonDecodeError,
    fix := fun d => Except.ok d }

/-- An environment in which every external step succeeds and the parsed
document is the empty object. -/
def successEnv : StreamlitEnv :=
  { selected_image := some "a.jpg",
    selected_image_path := some "Images/a.jpg",
    image_file_exists := true,
    ocr := Except.ok "receipt text",
    gen := Except.ok "reply: \x7b\x7d",
    loads := fun _ => Except.ok (Json.obj []),
    fix := fun d => Except.ok d }

/-- An environment in which the external steps succeed and the parsed
document is `mismatchDoc`, whose line item drives the persistence loop
into the missing `quantity` column. -/
def itemDocEnv : StreamlitEnv :=
  { selected_image := some "a.jpg",
    selected_image_path := some "Images/a.jpg",
    image_file_exists := true,
    ocr := Except.ok "receipt text",
    gen := Except.ok "reply: \x7b\x7d",
    loads := fun _ => Except.ok mismatchDoc,
    fix := fun d => Except.ok d }

/-- The header dict `save_json_to_db` builds from `mismatchDoc` for
receipt 1. -/
def mismatchHeaderRow : Row :=
  [("receipt_id", SqlValue.int 1),
   ("purchase_date", SqlValue.null),
   ("purchase_time", SqlValue.null),
   ("store_name", SqlValue.null),
   ("address", SqlValue.null),
   ("city", SqlValue.null),
   ("country", SqlValue.null),
   ("total_price", SqlValue.real 10),
   ("total_currency", SqlValue.text "EUR"),
   ("payment_method", SqlValue.null)]

/-! ## Helper lemmas -/

theorem idAsInt_le_maxId {idCol : String} {r : Row} {table : List Row}
    (h : r ∈ table) : idAsInt (rowVal r idCol) ≤ maxId idCol table := by
  induction table with
  | nil => cases h
  | cons a t ih =>
      rcases List.mem_cons.mp h with rfl | h2
      · simp only [maxId, List.foldr]
        exact le_max_left _ _
      · simp only [maxId, List.foldr]
        exact le_trans (ih h2) (le_max_right _ _)

theorem sqlEq_fresh_int {v : SqlValue} {n : Int} (h : idAsInt v < n) :
    sqlEq v (SqlValue.int n) = false := by
  cases v with
  | null => rfl
  | text s => rfl
  | int i =>
      simp only [idAsInt] at h
      simp only [sqlEq, decide_eq_false_iff_not]
      omega
  | real r =>
      simp only [idAsInt] at h
      simp only [sqlEq, decide_eq_false_iff_not]
      intro he
      rw [he] at h
      simp at h

/-- A freshly assigned autoincrement id collides with no id already in
the table. -/
theorem fresh_id_not_exists (idCol : String) (table : List Row) {n : Int}
    (h : maxId idCol table < n) :
    ¬ ∃ r ∈ table,
        sqlEq ((lookupA r idCol).getD SqlValue.null) (SqlValue.int n)
          = true := by
  rintro ⟨r, hr, he⟩
  have hv : sqlEq (rowVal r idCol) (SqlValue.int n) = false :=
    sqlEq_fresh_int (lt_of_le_of_lt (idAsInt_le_maxId hr) h)
  rw [show rowVal r idCol = (lookupA r idCol).getD SqlValue.null from rfl]
    at hv
  rw [hv] at he
  cases he

theorem match_getD (o : Option SqlValue) :
    (match o with | some v => v | none => SqlValue.null)
      = o.getD SqlValue.null := by
  cases o <;> rfl

theorem exceptBind_ok {α β : Type} (a : α) (f : α → Except PyErr β) :
    (Except.ok a >>= f) = f a := rfl

theorem exceptBind_error {α β : Type} (e : PyErr) (f : α → Except PyErr β) :
    ((Except.error e : Except PyErr α) >>= f) = Except.error e := rfl

theorem firstIdxOf_eq_none {ch : Char} {cs : List Char}
    (h : firstIdxOf ch cs = none) : ∀ c ∈ cs, c ≠ ch := by
  induction cs with
  | nil => simp
  | cons c cs ih =>
      unfold firstIdxOf at h
      by_cases hc : c = ch
      · rw [if_pos hc] at h; cases h
      · rw [if_neg hc] at h
        intro x hx
        rcases List.mem_cons.mp hx with rfl | hx2
        · exact hc
        · exact ih (Option.map_eq_none'.mp h) x hx2

theorem firstIdxOf_eq_some {ch : Char} {cs : List Char} {i : Nat}
    (h : firstIdxOf ch cs = some i) :
    cs[i]? = some ch ∧ ∀ k, k < i → cs[k]? ≠ some ch := by
  induction cs generalizing i with
  | nil => cases h
  | cons c cs ih =>
      unfold firstIdxOf at h
      by_cases hc : c = ch
      · rw [if_pos hc] at h
        cases h
        subst hc
        exact ⟨by simp, by omega⟩
      · rw [if_neg hc] at h
        rcases Option.map_eq_some'.mp h with ⟨j, hj, rfl⟩
        obtain ⟨h1, h2⟩ := ih hj
        refine ⟨by simpa using h1, ?_⟩
        intro k hk
        cases k with
        | zero => simpa using hc
        | succ k =>
            simp only [List.getElem?_cons_succ]
            exact h2 k (by omega)

theorem lastIdxOf_eq_none {ch : Char} {cs : List Char}
    (h : lastIdxOf ch cs = none) : ∀ c ∈ cs, c ≠ ch := by
  induction cs with
  | nil => simp
  | cons c cs ih =>
      unfold lastIdxOf at h
      cases hrec : lastIdxOf ch cs with
      | some j => rw [hrec] at h; cases h
      | none =>
          rw [hrec] at h
          by_cases hc : c = ch
          · rw [if_pos hc] at h; cases h
          · rw [if_neg hc] at h
            intro x hx
            rcases List.mem_cons.mp hx with rfl | hx2
            · exact hc
            · exact ih hrec x hx2

theorem lastIdxOf_eq_some {ch : Char} {cs : List Char} {j : Nat}
    (h : lastIdxOf ch cs = some j) :
    cs[j]? = some ch ∧ ∀ k, j < k → cs[k]? ≠ some ch := by
  induction cs generalizing j with
  | nil => cases h
  | cons c cs ih =>
      unfold lastIdxOf at h
      cases hrec : lastIdxOf ch cs with
      | some j2 =>
          rw [hrec] at h
          cases h
          obtain ⟨h1, h2⟩ := ih hrec
          refine ⟨by simpa using h1, ?_⟩
          intro k hk
          cases k with
          | zero => omega
          | succ k =>
              simp only [List.getElem?_cons_succ]
              exact h2 k (by omega)
      | none =>
          rw [hrec] at h
          by_cases hc : c = ch
          · rw [if_pos hc] at h
            cases h
            subst hc
            refine ⟨by simp, ?_⟩
            intro k hk
            cases k with
            | zero => omega
            | succ k =>
                simp only [List.getElem?_cons_succ]
                intro hcon
                exact lastIdxOf_eq_none hrec _ (List.getElem?_mem hcon) rfl
          · rw [if_neg hc] at h
            cases h

/-! ## Claim theorems -/

/-- Claim C1, counterexample: the `extracted_data` table has no
uniqueness constraint on `receipt_id`, so after one ingestion run has
inserted the header row for receipt 1, a second insert of the same
header dict returns `"inserted"` — not `"exists"` — and the table then
holds two `ExtractedData` rows for receipt 1. -/
theorem c1_counterexample_second_insert_not_exists :
    extracted_data_row (Json.obj []) (SqlValue.int 1)
        = Except.ok emptyHeaderRow
    ∧ (insert_data "t9" afterFirstIngestion "extracted_data"
        emptyHeaderRow).1 = PyOutcome.ret "inserted"
    ∧ ((insert_data "t9" afterFirstIngestion "extracted_data"
        emptyHeaderRow).2.extracted_data.filter
          fun r => sqlEq (rowVal r "receipt_id") (SqlValue.int 1)).length
        = 2 :=
  ⟨rfl, rfl, rfl⟩

/-- Claim C2, evaluation at the failing input: `init_database` creates
`receipt_items` with exactly the columns id, extracted_data_id, name,
price, currency, discount_percent, discount_value — no `quantity` and no
absolute-discount column — while `save_json_to_db` builds item dicts
with `quantity` and `absolute_discount` keys, so inserting any line item
raises `sqlite3.OperationalError` and persists nothing. -/
theorem c2_receipt_items_schema_lacks_quantity_columns :
    receiptItemsSchema.map ColumnSpec.name
        = ["id", "extracted_data_id", "name", "price", "currency",
           "discount_percent", "discount_value"]
    ∧ item_row (SqlValue.int 1) paneItem = Except.ok paneItemRow
    ∧ insert_data "t3" afterFirstIngestion "receipt_items" paneItemRow
        = (PyOutcome.raised PyErr.operationalError, afterFirstIngestion) :=
  ⟨rfl, rfl, rfl⟩

/-- Claim C3, counterexample: for the spec's §8 item (`quantita = 2`,
unit `prezzo = 1.00`) the item dict built by `save_json_to_db` carries
`price = 1.00` unchanged, whereas the claim requires
`round(1.00 * 2, 2) = 2.00`. -/
theorem c3_counterexample_no_quantity_scaling :
    item_row (SqlValue.int 1) paneItem = Except.ok paneItemRow
    ∧ lookupA paneItemRow "price" = some (SqlValue.real 1)
    ∧ spec_round2 (1 * 2) = 2
    ∧ (1 : Rat) ≠ 2 := by
  refine ⟨rfl, rfl, ?_, by norm_num⟩
  norm_num [spec_round2]

/-- Claim C4, counterexample: on the spec's own §8 example (declared
total 10.00, item sum 10.20, discrepancy 0.20 above the claimed
tolerance 0.10), `save_json_to_db` emits no warning whatsoever (its
message list is empty — the function contains no reconciliation and no
`st.warning`), although the persisted `total_price` does equal the
declared 10.00. -/
theorem c4_counterexample_no_mismatch_warning :
    (save_json_to_db "t4" oneReceiptDb mismatchDoc (SqlValue.int 1)).2.1
        = []
    ∧ ((save_json_to_db "t4" oneReceiptDb mismatchDoc
        (SqlValue.int 1)).2.2.extracted_data.map
          fun r => rowVal r "total_price") = [SqlValue.real 10]
    ∧ |(10 : Rat) - 102 / 10| > max (10 / 100) (1 / 100 * 10) :=
  ⟨rfl, rfl, by rw [abs_sub_comm, abs_of_nonneg (by norm_num)]; norm_num⟩

/-- Claim C5, evaluation at the failing input: deleting receipt
`a.jpg` from a database holding its header and one line item removes
only the `receipts` row.  No connection ever runs
`PRAGMA foreign_keys = ON`, so SQLite leaves the declared
`ON DELETE CASCADE` clauses unenforced: the `extracted_data` row (still
referencing the deleted receipt id 1) and the `receipt_items` row both
survive. -/
theorem c5_delete_receipt_does_not_cascade :
    (delete_data populatedDb "receipts"
        [("File_path", SqlValue.text "a.jpg")]).2.receipts = []
    ∧ ((delete_data populatedDb "receipts"
        [("File_path", SqlValue.text "a.jpg")]).2.extracted_data.map
          fun r => rowVal r "receipt_id") = [SqlValue.int 1]
    ∧ ((delete_data populatedDb "receipts"
        [("File_path", SqlValue.text "a.jpg")]).2.receipt_items.map
          fun r => rowVal r "extracted_data_id") = [SqlValue.int 1] :=
  ⟨rfl, rfl, rfl⟩

/-- Claim C6, counterexample: a non-uniqueness database error — here the
`OperationalError` from an INSERT naming the nonexistent `quantity`
column — is raised out of `insert_data`, not returned as an error
status. -/
theorem c6_counterexample_db_error_raised_not_status :
    insert_data "t5" init_database "receipt_items"
        [("quantity", SqlValue.int 2)]
      = (PyOutcome.raised PyErr.operationalError, init_database) := rfl

/-- Claim C7, counterexample: an exception raised during extraction (the
OCR call) escapes `run_ocr_and_save_json` — the only `except` clause in
the function catches `json.JSONDecodeError` and the OCR call is not even
inside the `try`. -/
theorem c7_counterexample_extraction_exception_escapes :
    run_ocr_and_save_json ocrFailureEnv "t6" [] oneReceiptDb
      = (RunResult.raised PyErr.externalError, [], [], oneReceiptDb) := rfl

/-- Claim C1, amended: the store has no uniqueness constraint on
`extracted_data.receipt_id`, so (1) inserting a header dict whose values
are valid succeeds with `"inserted"` whatever the table already contains
— in particular a second insert for an already-present `receipt_id`
appends a second row instead of returning `"exists"`; re-running
ingestion on the same receipt is a no-op only because of the artifact
check: (2) when the JSON artifact for the image already exists,
`run_ocr_and_save_json` skips the database entirely, warns that the file
already exists, and leaves folder and database unchanged. -/
theorem c1_amended_no_store_level_dedup :
    (∀ (now : String) (db : Database) (rid pd pt sn ad ci co tp tc pm : SqlValue),
      rid ≠ SqlValue.null → chkNonNeg tp = true → chkLen3 tc = true →
      insert_data now db "extracted_data"
        [("receipt_id", rid), ("purchase_date", pd), ("purchase_time", pt),
         ("store_name", sn), ("address", ad), ("city", ci), ("country", co),
         ("total_price", tp), ("total_currency", tc), ("payment_method", pm)]
        = (PyOutcome.ret "inserted",
           { db with extracted_data := db.extracted_data ++
              [buildRow now extractedDataSchema db.extracted_data
                [("receipt_id", rid), ("purchase_date", pd),
                 ("purchase_time", pt), ("store_name", sn), ("address", ad),
                 ("city", ci), ("country", co), ("total_price", tp),
                 ("total_currency", tc), ("payment_method", pm)]] }))
    ∧ (∀ (env : StreamlitEnv) (now : String) (folder : JsonFolder)
         (db : Database) (image path ocr_text gen_text raw : String)
         (d0 dict : Json),
      env.selected_image = some image → image.isEmpty = false →
      env.selected_image_path = some path → path.isEmpty = false →
      env.image_file_exists = true →
      env.ocr = Except.ok ocr_text → pyStrip ocr_text ≠ "" →
      env.gen = Except.ok gen_text →
      parse_json_from_string (pyStrip gen_text) = some raw →
      env.loads raw = Except.ok d0 → env.fix d0 = Except.ok dict →
      (lookupA folder (splitextStem image ++ ".json")).isSome = true →
      run_ocr_and_save_json env now folder db
        = (RunResult.returned (some dict),
           ["JSON file '" ++ (splitextStem image ++ ".json")
              ++ "' already exists in the folder. No action taken."],
           folder, db)) := by
  constructor
  · intro now db rid pd pt sn ad ci co tp tc pm hrid htp htc
    simp only [insert_data, knownTable, schemaOf, getTable, executeInsert,
      unknownColumn, extractedDataSchema, buildRow, violatesConstraints,
      List.any_cons, List.any_nil, List.map_cons, List.map_nil, lookupA,
      setTable]
    simp only [rowVal, lookupA]
    simp [hrid, htp, htc, nextId]
    rw [if_neg (fresh_id_not_exists "id" db.extracted_data
        (show maxId "id" db.extracted_data
            < maxId "id" db.extracted_data + 1 by omega))]
  · intro env now folder db image path ocr_text gen_text raw d0 dict
      himg hine hpath hpne hex hocr htrim hgen hparse hloads hfix hart
    unfold run_ocr_and_save_json
    rw [himg, hpath, hex, hocr, hgen]
    simp [pyTruthy, hine, hpne, htrim, hparse, hloads, hfix,
      save_json_to_folder, hart]

/-- Witness for the amended C1 at concrete inputs: a second header insert
for receipt 1 into a database that already holds its header, and a
re-run of the coordinator with the artifact `a.json` already present. -/
theorem c1_amended_witness :
    insert_data "t1" afterFirstIngestion "extracted_data"
        [("receipt_id", SqlValue.int 1), ("purchase_date", SqlValue.null),
         ("purchase_time", SqlValue.null), ("store_name", SqlValue.null),
         ("address", SqlValue.null), ("city", SqlValue.null),
         ("country", SqlValue.null), ("total_price", SqlValue.null),
         ("total_currency", SqlValue.null), ("payment_method", SqlValue.null)]
      = (PyOutcome.ret "inserted",
         { afterFirstIngestion with extracted_data :=
            afterFirstIngestion.extracted_data ++
              [buildRow "t1" extractedDataSchema
                afterFirstIngestion.extracted_data
                [("receipt_id", SqlValue.int 1), ("purchase_date", SqlValue.null),
                 ("purchase_time", SqlValue.null), ("store_name", SqlValue.null),
                 ("address", SqlValue.null), ("city", SqlValue.null),
                 ("country", SqlValue.null), ("total_price", SqlValue.null),
                 ("total_currency", SqlValue.null),
                 ("payment_method", SqlValue.null)]] })
    ∧ run_ocr_and_save_json successEnv "t1" [("a.json", Json.obj [])]
        oneReceiptDb
      = (RunResult.returned (some (Json.obj [])),
         ["JSON file 'a.json' already exists in the folder. No action taken."],
         [("a.json", Json.obj [])], oneReceiptDb) :=
  ⟨c1_amended_no_store_level_dedup.1 "t1" afterFirstIngestion
      (SqlValue.int 1) SqlValue.null SqlValue.null SqlValue.null
      SqlValue.null SqlValue.null SqlValue.null SqlValue.null SqlValue.null
      SqlValue.null (by decide) (by decide) (by decide),
   c1_amended_no_store_level_dedup.2 successEnv "t1"
      [("a.json", Json.obj [])] oneReceiptDb "a.jpg" "Images/a.jpg"
      "receipt text" "reply: \x7b\x7d" "\x7b\x7d" (Json.obj [])
      (Json.obj []) rfl rfl rfl rfl rfl rfl (by decide) rfl (by decide)
      rfl rfl rfl⟩

/-- Claim C3, amended: no quantity scaling exists — the `price` entry of
the item dict built by `save_json_to_db` is the item's `prezzo` value
bound as a SQL parameter unchanged, for every quantity. -/
theorem c3_amended_price_passes_through_unscaled
    (eid : SqlValue) (item : Json) (r : Row)
    (h : item_row eid item = Except.ok r) :
    (dictGet item "prezzo" >>= bindJson) = Except.ok (rowVal r "price") := by
  unfold item_row at h
  cases h1 : dictGet item "nome" >>= bindJson with
  | error e => rw [h1, exceptBind_error] at h; cases h
  | ok nm =>
  rw [h1, exceptBind_ok] at h
  cases h2 : dictGet item "quantita" >>= bindJson with
  | error e => rw [h2, exceptBind_error] at h; cases h
  | ok qt =>
  rw [h2, exceptBind_ok] at h
  cases h3 : dictGet item "prezzo" >>= bindJson with
  | error e => rw [h3, exceptBind_error] at h; cases h
  | ok pr =>
  rw [h3, exceptBind_ok] at h
  cases h4 : dictGet item "valuta" >>= bindJson with
  | error e => rw [h4, exceptBind_error] at h; cases h
  | ok cu =>
  rw [h4, exceptBind_ok] at h
  cases h5 : dictGet item "percentuale_sconto" >>= bindJson with
  | error e => rw [h5, exceptBind_error] at h; cases h
  | ok dp =>
  rw [h5, exceptBind_ok] at h
  cases h6 : dictGet item "sconto_assoluto" >>= bindJson with
  | error e => rw [h6, exceptBind_error] at h; cases h
  | ok da =>
  rw [h6, exceptBind_ok] at h
  cases h7 : dictGet item "valore_scontato" >>= bindJson with
  | error e => rw [h7, exceptBind_error] at h; cases h
  | ok dv =>
  rw [h7, exceptBind_ok] at h
  cases h
  rfl

/-- Witness for the amended C3 at the spec's §8 item. -/
theorem c3_amended_witness :
    (dictGet paneItem "prezzo" >>= bindJson)
      = Except.ok (rowVal paneItemRow "price") :=
  c3_amended_price_passes_through_unscaled (SqlValue.int 1) paneItem
    paneItemRow rfl

/-- Claim C4, amended: `save_json_to_db` performs no reconciliation at
all — it emits no message (in particular no total-mismatch warning) on
any input, and the `total_price` it persists in the header row is the
declared `prezzo_totale.valore` bound unchanged, never a computed item
sum. -/
theorem c4_amended_no_reconciliation_total_retained :
    (∀ (now : String) (db : Database) (json_data : Json)
        (receipt_id : SqlValue),
      (save_json_to_db now db json_data receipt_id).2.1 = [])
    ∧ (∀ (json_data : Json) (rid : SqlValue) (row : Row),
      extracted_data_row json_data rid = Except.ok row →
      ∃ pt, dictGetD json_data "prezzo_totale" (Json.obj []) = Except.ok pt
        ∧ (dictGet pt "valore" >>= bindJson)
            = Except.ok (rowVal row "total_price")) := by
  constructor
  · intro now db json_data receipt_id
    unfold save_json_to_db
    repeat' split
    all_goals try rfl
    all_goals dsimp only
    all_goals repeat' split
    all_goals rfl
  · intro json_data rid row h
    unfold extracted_data_row at h
    cases h1 : dictGet json_data "data" >>= bindJson with
    | error e => rw [h1, exceptBind_error] at h; cases h
    | ok pd =>
    rw [h1, exceptBind_ok] at h
    cases h2 : dictGet json_data "ora" >>= bindJson with
    | error e => rw [h2, exceptBind_error] at h; cases h
    | ok pt2 =>
    rw [h2, exceptBind_ok] at h
    cases h3 : dictGet json_data "negozio" >>= bindJson with
    | error e => rw [h3, exceptBind_error] at h; cases h
    | ok sn =>
    rw [h3, exceptBind_ok] at h
    cases h4 : dictGet json_data "indirizzo" >>= bindJson with
    | error e => rw [h4, exceptBind_error] at h; cases h
    | ok ad =>
    rw [h4, exceptBind_ok] at h
    cases h5 : dictGet json_data "città" >>= bindJson with
    | error e => rw [h5, exceptBind_error] at h; cases h
    | ok ci =>
    rw [h5, exceptBind_ok] at h
    cases h6 : dictGet json_data "paese" >>= bindJson with
    | error e => rw [h6, exceptBind_error] at h; cases h
    | ok co =>
    rw [h6, exceptBind_ok] at h
    cases h7 : dictGetD json_data "prezzo_totale" (Json.obj []) with
    | error e => rw [h7, exceptBind_error] at h; cases h
    | ok pt =>
    rw [h7, exceptBind_ok] at h
    cases h8 : dictGet pt "valore" >>= bindJson with
    | error e => rw [h8, exceptBind_error] at h; cases h
    | ok tp =>
    rw [h8, exceptBind_ok] at h
    cases h9 : dictGet pt "valuta" >>= bindJson with
    | error e => rw [h9, exceptBind_error] at h; cases h
    | ok tc =>
    rw [h9, exceptBind_ok] at h
    cases h10 : dictGet json_data "metodo_pagamento" >>= bindJson with
    | error e => rw [h10, exceptBind_error] at h; cases h
    | ok pm =>
    rw [h10, exceptBind_ok] at h
    cases h
    exact ⟨pt, rfl, by rw [h8]; rfl⟩

/-- Witness for the amended C4 at the §8 example document. -/
theorem c4_amended_witness :
    (save_json_to_db "t4" oneReceiptDb mismatchDoc (SqlValue.int 1)).2.1 = []
    ∧ ∃ pt, dictGetD mismatchDoc "prezzo_totale" (Json.obj [])
          = Except.ok pt
        ∧ (dictGet pt "valore" >>= bindJson)
            = Except.ok (rowVal mismatchHeaderRow "total_price") :=
  ⟨c4_amended_no_reconciliation_total_retained.1 "t4" oneReceiptDb
      mismatchDoc (SqlValue.int 1),
   c4_amended_no_reconciliation_total_retained.2 mismatchDoc
      (SqlValue.int 1) mismatchHeaderRow rfl⟩

/-- Claim C6, amended: `insert_data` returns only the strings
`"inserted"` and `"exists"`; every `sqlite3.IntegrityError` (uniqueness,
NOT NULL and CHECK violations alike) is converted to `"exists"` and never
propagates; any other database error is not returned as a status — it is
raised to the caller, with the database unchanged. -/
theorem c6_amended_integrity_caught_others_raised (now : String)
    (db : Database) (tbl : String) (data : Row) :
    (∀ s, (insert_data now db tbl data).1 = PyOutcome.ret s →
       s = "inserted" ∨ s = "exists")
    ∧ (∀ e, (insert_data now db tbl data).1 = PyOutcome.raised e →
       e ≠ PyErr.integrityError ∧ (insert_data now db tbl data).2 = db) := by
  unfold insert_data
  split
  · constructor
    · intro s hs
      cases hs
    · intro e he
      cases he
      exact ⟨by decide, rfl⟩
  · cases hex : executeInsert now (schemaOf tbl) (getTable db tbl) data with
    | ok rows =>
        constructor
        · intro s hs
          cases hs
          exact Or.inl rfl
        · intro e he
          cases he
    | error e2 =>
        constructor
        · intro s hs
          cases e2 <;> (cases hs <;> exact Or.inr rfl)
        · intro e he
          cases e2 <;> (cases he <;> exact ⟨by decide, rfl⟩)

/-- Witness for the amended C6: a duplicate `File_path` insert observes
`"exists"`, and the unknown-column insert raises with the database
unchanged. -/
theorem c6_amended_witness :
    ("exists" = "inserted" ∨ "exists" = "exists")
    ∧ PyErr.operationalError ≠ PyErr.integrityError
    ∧ (insert_data "t5" init_database "receipt_items"
        [("quantity", SqlValue.int 2)]).2 = init_database :=
  ⟨(c6_amended_integrity_caught_others_raised "t5" oneReceiptDb "receipts"
      [("File_path", SqlValue.text "a.jpg")]).1 "exists" rfl,
   (c6_amended_integrity_caught_others_raised "t5" init_database
      "receipt_items" [("quantity", SqlValue.int 2)]).2
      PyErr.operationalError rfl⟩

/-- Claim C7, amended: the coordinator handles each non-exceptional
failure by returning `None` with a message — (a) a missing/falsy image
selection, (b) empty OCR text and (c) a missing JSON span all leave the
state unchanged, while (f) a missing receipt row is reported only after
the JSON artifact has just been written, so the artifact remains on disk
though the database is untouched.  But its only `except` clause catches
`json.JSONDecodeError`: (d) an exception raised by the extraction (OCR)
call escapes with the state unchanged, and (e) a database exception
raised during persistence escapes after the artifact write and the
partial database commit. -/
theorem c7_amended_only_decode_errors_caught :
    (∀ (env : StreamlitEnv) (now : String) (folder : JsonFolder)
        (db : Database),
      (!pyTruthy env.selected_image || !pyTruthy env.selected_image_path
        || !env.image_file_exists) = true →
      run_ocr_and_save_json env now folder db
        = (RunResult.returned none,
           ["Nessuna immagine selezionata o file non trovato."],
           folder, db))
    ∧ (∀ (env : StreamlitEnv) (now : String) (folder : JsonFolder)
        (db : Database) (image path ocr_text : String),
      env.selected_image = some image → image.isEmpty = false →
      env.selected_image_path = some path → path.isEmpty = false →
      env.image_file_exists = true →
      env.ocr = Except.ok ocr_text → pyStrip ocr_text = "" →
      run_ocr_and_save_json env now folder db
        = (RunResult.returned none,
           ["Testo OCR vuoto. Impossibile continuare."], folder, db))
    ∧ (∀ (env : StreamlitEnv) (now : String) (folder : JsonFolder)
        (db : Database) (image path ocr_text gen_text : String),
      env.selected_image = some image → image.isEmpty = false →
      env.selected_image_path = some path → path.isEmpty = false →
      env.image_file_exists = true →
      env.ocr = Except.ok ocr_text → pyStrip ocr_text ≠ "" →
      env.gen = Except.ok gen_text →
      parse_json_from_string (pyStrip gen_text) = none →
      run_ocr_and_save_json env now folder db
        = (RunResult.returned none,
           ["No JSON object found in extracted data. File not saved."],
           folder, db))
    ∧ (∀ (env : StreamlitEnv) (now : String) (folder : JsonFolder)
        (db : Database) (image path : String) (e : PyErr),
      env.selected_image = some image → image.isEmpty = false →
      env.selected_image_path = some path → path.isEmpty = false →
      env.image_file_exists = true →
      env.ocr = Except.error e →
      run_ocr_and_save_json env now folder db
        = (RunResult.raised e, [], folder, db))
    ∧ (∀ (env : StreamlitEnv) (now : String) (folder : JsonFolder)
        (db : Database) (image path ocr_text gen_text raw : String)
        (d0 dict : Json) (rid : SqlValue) (e : PyErr) (m3 : List String)
        (db1 : Database),
      env.selected_image = some image → image.isEmpty = false →
      env.selected_image_path = some path → path.isEmpty = false →
      env.image_file_exists = true →
      env.ocr = Except.ok ocr_text → pyStrip ocr_text ≠ "" →
      env.gen = Except.ok gen_text →
      parse_json_from_string (pyStrip gen_text) = some raw →
      env.loads raw = Except.ok d0 → env.fix d0 = Except.ok dict →
      (lookupA folder (splitextStem image ++ ".json")).isSome = false →
      (match (get_data db "receipts" ["Id"]
            [("File_path", SqlValue.text image)]).head? with
        | some r0 => r0.headD SqlValue.null
        | none => SqlValue.null) = rid →
      rid ≠ SqlValue.null →
      save_json_to_db now db dict rid = (PyOutcome.raised e, m3, db1) →
      run_ocr_and_save_json env now folder db
        = (RunResult.raised e,
           ["JSON file saved successfully at: "
               ++ (EXTRACTED_JSON_DIR ++ "/"
                   ++ (splitextStem image ++ ".json"))] ++ m3,
           folder ++ [(splitextStem image ++ ".json", dict)], db1))
    ∧ (∀ (env : StreamlitEnv) (now : String) (folder : JsonFolder)
        (db : Database) (image path ocr_text gen_text raw : String)
        (d0 dict : Json),
      env.selected_image = some image → image.isEmpty = false →
      env.selected_image_path = some path → path.isEmpty = false →
      env.image_file_exists = true →
      env.ocr = Except.ok ocr_text → pyStrip ocr_text ≠ "" →
      env.gen = Except.ok gen_text →
      parse_json_from_string (pyStrip gen_text) = some raw →
      env.loads raw = Except.ok d0 → env.fix d0 = Except.ok dict →
      (lookupA folder (splitextStem image ++ ".json")).isSome = false →
      (match (get_data db "receipts" ["Id"]
            [("File_path", SqlValue.text image)]).head? with
        | some r0 => r0.headD SqlValue.null
        | none => SqlValue.null) = SqlValue.null →
      run_ocr_and_save_json env now folder db
        = (RunResult.returned none,
           ["JSON file saved successfully at: "
               ++ (EXTRACTED_JSON_DIR ++ "/"
                   ++ (splitextStem image ++ ".json")),
            "No matching receipt found in database."],
           folder ++ [(splitextStem image ++ ".json", dict)], db)) := by
  refine ⟨?_, ?_, ?_, ?_, ?_, ?_⟩
  · intro env now folder db h
    unfold run_ocr_and_save_json
    rw [if_pos h]
  · intro env now folder db image path ocr_text himg hine hpath hpne hex
      hocr htrim
    unfold run_ocr_and_save_json
    rw [himg, hpath, hex, hocr]
    simp [pyTruthy, hine, hpne, htrim]
  · intro env now folder db image path ocr_text gen_text himg hine hpath
      hpne hex hocr htrim hgen hparse
    unfold run_ocr_and_save_json
    rw [himg, hpath, hex, hocr, hgen]
    simp [pyTruthy, hine, hpne, htrim, hparse]
  · intro env now folder db image path e himg hine hpath hpne hex hocr
    unfold run_ocr_and_save_json
    rw [himg, hpath, hex, hocr]
    simp [pyTruthy, hine, hpne]
  · intro env now folder db image path ocr_text gen_text raw d0 dict rid
      e m3 db1 himg hine hpath hpne hex hocr htrim hgen hparse hloads
      hfix hart hrid hridne hsave
    unfold run_ocr_and_save_json
    rw [himg, hpath, hex, hocr, hgen]
    simp only [pyTruthy, hine, hpne, htrim, hparse, hloads, hfix,
      save_json_to_folder, hart]
    rw [if_neg (show ¬ (false = true) by decide)]
    dsimp only
    rw [hrid, if_neg hridne, hsave]
    simp
  · intro env now folder db image path ocr_text gen_text raw d0 dict
      himg hine hpath hpne hex hocr htrim hgen hparse hloads hfix hart
      hridnull
    unfold run_ocr_and_save_json
    rw [himg, hpath, hex, hocr, hgen]
    simp only [pyTruthy, hine, hpne, htrim, hparse, hloads, hfix,
      save_json_to_folder, hart]
    rw [if_neg (show ¬ (false = true) by decide)]
    dsimp only
    rw [hridnull, if_pos rfl]
    simp

/-- Witness for the amended C7: concrete runs exercising each conjunct —
missing image, blank OCR text, missing span, an OCR exception escaping,
a persistence exception escaping after the artifact write, and the
missing-receipt report with the artifact left on disk. -/
theorem c7_amended_witness :
    run_ocr_and_save_json { ocrFailureEnv with selected_image := none }
        "t7" [] init_database
      = (RunResult.returned none,
         ["Nessuna immagine selezionata o file non trovato."],
         [], init_database)
    ∧ run_ocr_and_save_json { ocrFailureEnv with ocr := Except.ok "   " }
        "t7" [] init_database
      = (RunResult.returned none,
         ["Testo OCR vuoto. Impossibile continuare."], [], init_database)
    ∧ run_ocr_and_save_json noJsonEnv "t7" [] init_database
      = (RunResult.returned none,
         ["No JSON object found in extracted data. File not saved."],
         [], init_database)
    ∧ run_ocr_and_save_json ocrFailureEnv "t7" [] init_database
      = (RunResult.raised PyErr.externalError, [], [], init_database)
    ∧ run_ocr_and_save_json itemDocEnv "t7" [] oneReceiptDb
      = (RunResult.raised PyErr.operationalError,
         ["JSON file saved successfully at: "
             ++ (EXTRACTED_JSON_DIR ++ "/"
                 ++ (splitextStem "a.jpg" ++ ".json"))] ++ [],
         [] ++ [(splitextStem "a.jpg" ++ ".json", mismatchDoc)],
         (save_json_to_db "t7" oneReceiptDb mismatchDoc
            (SqlValue.int 1)).2.2)
    ∧ run_ocr_and_save_json itemDocEnv "t7" [] init_database
      = (RunResult.returned none,
         ["JSON file saved successfully at: "
             ++ (EXTRACTED_JSON_DIR ++ "/"
                 ++ (splitextStem "a.jpg" ++ ".json")),
          "No matching receipt found in database."],
         [] ++ [(splitextStem "a.jpg" ++ ".json", mismatchDoc)],
         init_database) :=
  ⟨c7_amended_only_decode_errors_caught.1
      { ocrFailureEnv with selected_image := none } "t7" [] init_database
      rfl,
   c7_amended_only_decode_errors_caught.2.1
      { ocrFailureEnv with ocr := Except.ok "   " } "t7" [] init_database
      "a.jpg" "Images/a.jpg" "   " rfl rfl rfl rfl rfl rfl (by decide),
   c7_amended_only_decode_errors_caught.2.2.1 noJsonEnv "t7" []
      init_database "a.jpg" "Images/a.jpg" "receipt text"
      "there is no structured object here" rfl rfl rfl rfl rfl rfl
      (by decide) rfl (by decide),
   c7_amended_only_decode_errors_caught.2.2.2.1 ocrFailureEnv "t7" []
      init_database "a.jpg" "Images/a.jpg" PyErr.externalError rfl rfl
      rfl rfl rfl rfl,
   c7_amended_only_decode_errors_caught.2.2.2.2.1 itemDocEnv "t7" []
      oneReceiptDb "a.jpg" "Images/a.jpg" "receipt text" "reply: \x7b\x7d"
      "\x7b\x7d" mismatchDoc mismatchDoc (SqlValue.int 1)
      PyErr.operationalError []
      (save_json_to_db "t7" oneReceiptDb mismatchDoc (SqlValue.int 1)).2.2
      rfl rfl rfl rfl rfl rfl (by decide) rfl (by decide) rfl rfl rfl
      rfl (by decide) rfl,
   c7_amended_only_decode_errors_caught.2.2.2.2.2 itemDocEnv "t7" []
      init_database "a.jpg" "Images/a.jpg" "receipt text" "reply: \x7b\x7d"
      "\x7b\x7d" mismatchDoc mismatchDoc rfl rfl rfl rfl rfl rfl
      (by decide) rfl (by decide) rfl rfl rfl rfl⟩

/-- Claim C8: when the extracted span fails to parse
(`json.JSONDecodeError`), the run reports the invalid-JSON failure and
returns `None` with the folder and database exactly as before — no row
and no artifact; and conversely, any run that changes the artifact
folder went through a generation result whose span parsed
successfully. -/
theorem c8_invalid_json_writes_nothing :
    (∀ (env : StreamlitEnv) (now : String) (folder : JsonFolder)
        (db : Database) (image path ocr_text gen_text raw : String),
      env.selected_image = some image → image.isEmpty = false →
      env.selected_image_path = some path → path.isEmpty = false →
      env.image_file_exists = true →
      env.ocr = Except.ok ocr_text → pyStrip ocr_text ≠ "" →
      env.gen = Except.ok gen_text →
      parse_json_from_string (pyStrip gen_text) = some raw →
      env.loads raw = Except.error PyErr.jsonDecodeError →
      run_ocr_and_save_json env now folder db
        = (RunResult.returned none,
           ["Generated data is not valid JSON. File not saved."],
           folder, db))
    ∧ (∀ (env : StreamlitEnv) (now : String) (folder : JsonFolder)
        (db : Database),
      (run_ocr_and_save_json env now folder db).2.2.1 ≠ folder →
      ∃ g raw d, env.gen = Except.ok g
        ∧ parse_json_from_string (pyStrip g) = some raw
        ∧ env.loads raw = Except.ok d) := by
  constructor
  · intro env now folder db image path ocr_text gen_text raw himg hine
      hpath hpne hex hocr htrim hgen hparse hloads
    unfold run_ocr_and_save_json
    rw [himg, hpath, hex, hocr, hgen]
    simp [pyTruthy, hine, hpne, htrim, hparse, hloads]
  · intro env now folder db hch
    unfold run_ocr_and_save_json at hch
    by_cases h0 : (!pyTruthy env.selected_image
        || !pyTruthy env.selected_image_path
        || !env.image_file_exists) = true
    · rw [if_pos h0] at hch
      simp at hch
    · rw [if_neg h0] at hch
      cases himg : env.selected_image with
      | none => simp only [himg] at hch; simp at hch
      | some image =>
      simp only [himg] at hch
      cases hocr : env.ocr with
      | error e => simp only [hocr] at hch; simp at hch
      | ok ocr_text =>
      simp only [hocr] at hch
      by_cases htr : pyStrip ocr_text = ""
      · rw [if_pos htr] at hch
        simp at hch
      · rw [if_neg htr] at hch
        cases hgen : env.gen with
        | error e => simp only [hgen] at hch; simp at hch
        | ok g =>
        simp only [hgen] at hch
        cases hparse : parse_json_from_string (pyStrip g) with
        | none => simp only [hparse] at hch; simp at hch
        | some raw =>
        simp only [hparse] at hch
        cases hloads : env.loads raw with
        | ok d0 => exact ⟨g, raw, d0, rfl, hparse, hloads⟩
        | error e =>
            simp only [hloads] at hch
            cases e <;> simp at hch

/-- Witness for C8: the invalid-JSON environment leaves folder and
database untouched, and the fully successful environment (which does
write the `a.json` artifact) indeed parsed its span. -/
theorem c8_witness :
    run_ocr_and_save_json invalidJsonEnv "t8" [] oneReceiptDb
      = (RunResult.returned none,
         ["Generated data is not valid JSON. File not saved."],
         [], oneReceiptDb)
    ∧ ∃ g raw d, successEnv.gen = Except.ok g
        ∧ parse_json_from_string (pyStrip g) = some raw
        ∧ successEnv.loads raw = Except.ok d :=
  ⟨c8_invalid_json_writes_nothing.1 invalidJsonEnv "t8" [] oneReceiptDb
      "a.jpg" "Images/a.jpg" "receipt text" "reply: \x7bnot valid json\x7d"
      "\x7bnot valid json\x7d" rfl rfl rfl rfl rfl rfl (by decide) rfl
      (by decide) rfl,
   c8_invalid_json_writes_nothing.2 successEnv "t8" [] oneReceiptDb
      (fun h => List.cons_ne_nil _ _
        (h : ("a.json", Json.obj []) :: ([] : JsonFolder) = []))⟩

/-- Claim C9: `parse_json_from_string` is total (it can never raise),
returns `None` exactly when no `\x7b` is followed by a later `\x7d`,
and otherwise returns the substring spanning from the first `\x7b` of
the string to its last `\x7d` — the denotation of the greedy
`re.search` pattern. -/
theorem c9_parse_json_from_string_spec (text : String) :
    (parse_json_from_string text = none →
       ∀ i j : Nat, i < j → text.data[i]? = some lbrace →
         text.data[j]? = some rbrace → False)
    ∧ (∀ r, parse_json_from_string text = some r →
       ∃ pre core post,
         text.data = pre ++ core ++ post ∧ r.data = core
         ∧ core.head? = some lbrace ∧ core.getLast? = some rbrace
         ∧ (∀ c ∈ pre, c ≠ lbrace) ∧ (∀ c ∈ post, c ≠ rbrace)) := by
  constructor
  · intro hn i j hij hi hj
    unfold parse_json_from_string at hn
    dsimp only at hn
    cases hf : firstIdxOf lbrace text.data with
    | none => exact firstIdxOf_eq_none hf _ (List.getElem?_mem hi) rfl
    | some a =>
        cases hl : lastIdxOf rbrace text.data with
        | none => exact lastIdxOf_eq_none hl _ (List.getElem?_mem hj) rfl
        | some b =>
            rw [hf, hl] at hn
            dsimp only at hn
            by_cases hab : a < b
            · rw [if_pos hab] at hn; cases hn
            · obtain ⟨hfa, hfmin⟩ := firstIdxOf_eq_some hf
              obtain ⟨hlb, hlmax⟩ := lastIdxOf_eq_some hl
              have hia : ¬ i < a := fun hcon => hfmin i hcon hi
              have hjb : ¬ b < j := fun hcon => hlmax j hcon hj
              omega
  · intro r hr
    unfold parse_json_from_string at hr
    dsimp only at hr
    cases hf : firstIdxOf lbrace text.data with
    | none => rw [hf] at hr; cases hr
    | some i =>
        cases hl : lastIdxOf rbrace text.data with
        | none => rw [hf, hl] at hr; cases hr
        | some j =>
            rw [hf, hl] at hr
            dsimp only at hr
            by_cases hij : i < j
            · rw [if_pos hij] at hr
              cases hr
              obtain ⟨hfa, hfmin⟩ := firstIdxOf_eq_some hf
              obtain ⟨hlb, hlmax⟩ := lastIdxOf_eq_some hl
              refine ⟨text.data.take i, (text.data.drop i).take (j - i + 1),
                text.data.drop (j + 1), ?_, rfl, ?_, ?_, ?_, ?_⟩
              · have hdd : text.data.drop (j + 1)
                    = (text.data.drop i).drop (j - i + 1) := by
                  rw [List.drop_drop]
                  congr 1
                  omega
                rw [hdd, List.append_assoc, List.take_append_drop,
                  List.take_append_drop]
              · rw [List.head?_take, if_neg (by omega), List.head?_drop]
                exact hfa
              · rw [List.getLast?_take, if_neg (by omega),
                  List.getElem?_drop]
                have hidx : i + (j - i + 1 - 1) = j := by omega
                rw [hidx, hlb, Option.or_some]
              · intro c hc
                rcases List.mem_iff_getElem?.mp hc with ⟨k, hk⟩
                rw [List.getElem?_take] at hk
                by_cases hki : k < i
                · rw [if_pos hki] at hk
                  rintro rfl
                  exact hfmin k hki hk
                · rw [if_neg hki] at hk
                  cases hk
              · intro c hc
                rcases List.mem_iff_getElem?.mp hc with ⟨k, hk⟩
                rw [List.getElem?_drop] at hk
                rintro rfl
                exact hlmax (j + 1 + k) (by omega) hk
            · rw [if_neg hij] at hr
              cases hr

/-- Witness for C9 at a concrete noisy model output. -/
theorem c9_witness :
    ∃ pre core post,
      ("ok: \x7bb\x7d tail").data = pre ++ core ++ post
      ∧ ("\x7bb\x7d").data = core
      ∧ core.head? = some lbrace ∧ core.getLast? = some rbrace
      ∧ (∀ c ∈ pre, c ≠ lbrace) ∧ (∀ c ∈ post, c ≠ rbrace) :=
  (c9_parse_json_from_string_spec "ok: \x7bb\x7d tail").2 "\x7bb\x7d"
    (by decide)

/-- Claim C10: every listed integrity violation — NOT NULL on `name`,
`CHECK price >= 0`, `CHECK LENGTH(currency) = 3`,
`CHECK 0 <= discount_percent <= 100` on `receipt_items`, and the unique
`File_path` on `receipts` — makes `insert_data` return the very string
`"exists"` that a duplicate returns, committing nothing, so callers
cannot tell invalid data from an already-present row. -/
theorem c10_integrity_violations_become_exists :
    (∀ (now : String) (db : Database) (data : Row),
      unknownColumn receiptItemsSchema data = false →
      (rowVal data "name" = SqlValue.null
        ∨ (∃ q : Rat, rowVal data "price" = SqlValue.real q ∧ q < 0)
        ∨ (∃ s, rowVal data "currency" = SqlValue.text s ∧ s.length ≠ 3)
        ∨ (∃ q : Rat, rowVal data "discount_percent" = SqlValue.real q
             ∧ (q < 0 ∨ 100 < q))) →
      insert_data now db "receipt_items" data = (PyOutcome.ret "exists", db))
    ∧ (∀ (now : String) (db : Database) (data : Row),
      unknownColumn receiptsSchema data = false →
      (∃ s, rowVal data "File_path" = SqlValue.text s
         ∧ ∃ r ∈ db.receipts, rowVal r "File_path" = SqlValue.text s) →
      insert_data now db "receipts" data = (PyOutcome.ret "exists", db)) := by
  constructor
  · intro now db data hkeys hviol
    have hviolB : violatesConstraints receiptItemsSchema db.receipt_items
        (buildRow now receiptItemsSchema db.receipt_items data) = true := by
      simp [violatesConstraints, receiptItemsSchema, buildRow, lookupA,
        rowVal]
      simp only [match_getD]
      simp only [rowVal] at hviol
      rcases hviol with h | ⟨q, hq, hlt⟩ | ⟨sv, hs, hne⟩ | ⟨q, hq, hout⟩
      · exact Or.inr (Or.inr (Or.inl h))
      · refine Or.inr (Or.inr (Or.inr (Or.inl ?_)))
        rw [hq]
        simp [chkNonNeg]
        exact hlt
      · refine Or.inr (Or.inr (Or.inr (Or.inr (Or.inl ?_))))
        rw [hs]
        simp [chkLen3]
        exact hne
      · refine Or.inr (Or.inr (Or.inr (Or.inr (Or.inr (Or.inl ?_)))))
        rw [hq]
        simp [chkPercent]
        intro hge
        rcases hout with h1 | h1
        · exact absurd hge (not_le.mpr h1)
        · exact h1
    simp [insert_data, knownTable, schemaOf, getTable, executeInsert,
      hkeys, hviolB]
  · intro now db data hkeys hdup
    have hviolB : violatesConstraints receiptsSchema db.receipts
        (buildRow now receiptsSchema db.receipts data) = true := by
      simp [violatesConstraints, receiptsSchema, buildRow, lookupA, rowVal]
      simp only [match_getD]
      obtain ⟨s, hs, r, hr, hrs⟩ := hdup
      simp only [rowVal] at hs hrs
      refine Or.inr ⟨r, hr, ?_⟩
      rw [hs, hrs]
      simp [sqlEq]
    simp [insert_data, knownTable, schemaOf, getTable, executeInsert,
      hkeys, hviolB]

/-- Witness for C10: a line item with its `name` absent (NOT NULL
violation) and a duplicate `File_path` both come back as `"exists"` with
the database unchanged. -/
theorem c10_witness :
    insert_data "w" init_database "receipt_items"
        [("extracted_data_id", SqlValue.int 1)]
      = (PyOutcome.ret "exists", init_database)
    ∧ insert_data "w" oneReceiptDb "receipts"
        [("File_path", SqlValue.text "a.jpg")]
      = (PyOutcome.ret "exists", oneReceiptDb) :=
  ⟨c10_integrity_violations_become_exists.1 "w" init_database
      [("extracted_data_id", SqlValue.int 1)] rfl (Or.inl rfl),
   c10_integrity_violations_become_exists.2 "w" oneReceiptDb
      [("File_path", SqlValue.text "a.jpg")] rfl
      ⟨"a.jpg", rfl,
       [("Id", SqlValue.int 1), ("File_path", SqlValue.text "a.jpg"),
        ("Upload_date", SqlValue.text "t0")], by decide, rfl⟩⟩

end SmartReceipts

